import Mathlib

/-!
Verification of the Reimbursement Engine
(src/calculate_reimbursement.py: class ReimbursementCalculator and main).

The engine is shallowly embedded over the rationals: the Python floats are
modelled as exact rational arithmetic, and both the two-decimal formatting
of the quirk check and the two-decimal rounding of the final amount are
modelled as rounding the value times 100 to the nearest integer.
-/

namespace Reimbursement

/-- Cents of the two-decimal formatting of an amount: the amount in cents,
rounded to the nearest integer, as in the format string of
calculate_reimbursement.py line 28. -/
def centsOf (r : ℚ) : ℤ := round (r * 100)

/-- The quirk flag of line 29: the two-decimal formatting of receipts ends
in ".49" or ".99", that is, its cents value modulo 100 is 49 or 99. -/
def hasRoundingBug (r : ℚ) : Prop :=
  centsOf r % 100 = 49 ∨ centsOf r % 100 = 99

instance (r : ℚ) : Decidable (hasRoundingBug r) := by
  unfold hasRoundingBug; infer_instance

/-- Capped receipts, lines 32-35: receipts above 1800 are attenuated to 15%
of face value. -/
def cappedReceipts (r : ℚ) : ℚ :=
  if r > 1800 then 1800 + (r - 1800) * 0.15 else r

/-- Capped miles, lines 37-40: miles above 800 are attenuated to 25% of
face value. -/
def cappedMiles (m : ℚ) : ℚ :=
  if m > 800 then 800 + (m - 800) * 0.25 else m

/-- The base linear combination of lines 43-46, with the constants of
lines 16-19. -/
def baseAmount (d : ℤ) (m r : ℚ) : ℚ :=
  266.71 + 50.05 * (d : ℚ) + 0.4456 * cappedMiles m + 0.3829 * cappedReceipts r

/-- Miles per day with the division-by-zero guard of line 76. -/
def milesPerDay (d : ℤ) (m : ℚ) : ℚ :=
  if 0 < d then m / (d : ℚ) else m

/-- Adjustment of lines 55-56: five-day trips are reduced. -/
def adjStep1 (d : ℤ) (a : ℚ) : ℚ := if d = 5 then a * 0.92 else a

/-- Adjustment of lines 59-60: very long trips with high mileage are
reduced. -/
def adjStep2 (d : ℤ) (m a : ℚ) : ℚ :=
  if 12 ≤ d ∧ 1000 ≤ m then a * 0.85 else a

/-- Adjustment of lines 63-64: short trips with minimal inputs are
boosted. -/
def adjStep3 (d : ℤ) (m r a : ℚ) : ℚ :=
  if d ≤ 2 ∧ m < 100 ∧ r < 50 then a * 1.15 else a

/-- Adjustment of lines 68-69: mid-length trips with high mileage and
receipts are boosted. -/
def adjStep4 (d : ℤ) (m r a : ℚ) : ℚ :=
  if 7 ≤ d ∧ d ≤ 8 ∧ 1000 ≤ m ∧ 1000 ≤ r then a * 1.25 else a

/-- Adjustment of lines 72-73: 13-to-14-day trips with high values are
boosted. -/
def adjStep5 (d : ℤ) (m r a : ℚ) : ℚ :=
  if 13 ≤ d ∧ d ≤ 14 ∧ 1000 ≤ m ∧ 1000 ≤ r then a * 1.20 else a

/-- The efficiency bonus of lines 76-78. -/
def bonusStep (d : ℤ) (m a : ℚ) : ℚ :=
  if 180 ≤ milesPerDay d m ∧ milesPerDay d m ≤ 220 then a + 30.0 else a

/-- The non-quirk adjustment chain of lines 52-78: the six statements of
the source applied to the running amount in their fixed textual order. -/
def adjust (d : ℤ) (m r a : ℚ) : ℚ :=
  bonusStep d m
    (adjStep5 d m r (adjStep4 d m r (adjStep3 d m r (adjStep2 d m (adjStep1 d a)))))

/-- The amount before the final rounding and clamping: the quirk branch of
lines 49-50, otherwise the adjustment chain applied to the base. -/
def preRound (d : ℤ) (m r : ℚ) : ℚ :=
  if hasRoundingBug r then baseAmount d m r * 0.457
  else adjust d m r (baseAmount d m r)

/-- Rounding to two decimal places, line 81. -/
def roundCents (a : ℚ) : ℚ := ((round (a * 100) : ℤ) : ℚ) / 100

/-- ReimbursementCalculator.calculate, lines 24-84: quirk detection, caps,
base linear combination, quirk-or-adjust branch, rounding, and the clamp at
zero of line 84. -/
def calculate (d : ℤ) (m r : ℚ) : ℚ :=
  max 0 (roundCents (preRound d m r))

/-- The product of the multiplicative adjustment factors whose predicates
match, one factor per rule of lines 55-73. -/
def factorProduct (d : ℤ) (m r : ℚ) : ℚ :=
  (if d = 5 then (0.92 : ℚ) else 1) *
  (if 12 ≤ d ∧ 1000 ≤ m then (0.85 : ℚ) else 1) *
  (if d ≤ 2 ∧ m < 100 ∧ r < 50 then (1.15 : ℚ) else 1) *
  (if 7 ≤ d ∧ d ≤ 8 ∧ 1000 ≤ m ∧ 1000 ≤ r then (1.25 : ℚ) else 1) *
  (if 13 ≤ d ∧ d ≤ 14 ∧ 1000 ≤ m ∧ 1000 ≤ r then (1.20 : ℚ) else 1)

/-- Claim C2: on a quirked request the result is the rounded and clamped
product of the Stage C base with 0.457, and none of the Stage E
adjustments appears in the result. -/
theorem quirk_branch_exclusive (d : ℤ) (m r : ℚ)
    (hd : 1 ≤ d) (hm : 0 ≤ m) (hr : 0 ≤ r) (hq : hasRoundingBug r) :
    calculate d m r = max 0 (roundCents (baseAmount d m r * 0.457)) := by
  unfold calculate preRound
  rw [if_pos hq]

/-- Witness for quirk_branch_exclusive at days 2, miles 50,
receipts 100.49, whose cents value is 49. -/
theorem quirk_branch_exclusive_witness :
    calculate 2 50 100.49 = max 0 (roundCents (baseAmount 2 50 100.49 * 0.457)) :=
  quirk_branch_exclusive 2 50 100.49 (by norm_num) (by norm_num) (by norm_num)
    (by norm_num [hasRoundingBug, centsOf, round_eq])

/-- Claim C5: in the non-quirk branch, when miles per day lies between 180
and 220, the pre-rounding amount is the product of the matching
multiplicative factors with the base, plus a flat 30.0 added last, never
itself multiplied by any factor. -/
theorem efficiency_bonus_additive (d : ℤ) (m r : ℚ)
    (hq : ¬ hasRoundingBug r)
    (h1 : 180 ≤ milesPerDay d m) (h2 : milesPerDay d m ≤ 220) :
    preRound d m r = factorProduct d m r * baseAmount d m r + 30.0 := by
  unfold preRound
  rw [if_neg hq]
  unfold adjust factorProduct bonusStep adjStep5 adjStep4 adjStep3 adjStep2 adjStep1
  rw [if_pos ⟨h1, h2⟩]
  split_ifs <;> ring

/-- Witness for efficiency_bonus_additive at days 2, miles 400,
receipts 0, where miles per day is 200. -/
theorem efficiency_bonus_additive_witness :
    preRound 2 400 0 = factorProduct 2 400 0 * baseAmount 2 400 0 + 30.0 :=
  efficiency_bonus_additive 2 400 0
    (by norm_num [hasRoundingBug, centsOf, round_eq])
    (by norm_num [milesPerDay]) (by norm_num [milesPerDay])

/-- Claim C3 counterexample: at days 5, receipts 0, raising miles from
2000 to 2400 raises the pre-rounding amount by 0.92 times the attenuated
mileage rate, not by the attenuated rate itself: the five-day factor 0.92
scales the slope, so the claimed exact growth of 0.4456 x 0.25 per mile
fails. -/
theorem mileage_slope_counterexample :
    preRound 5 2400 0 - preRound 5 2000 0 ≠ 0.4456 * 0.25 * (2400 - 2000) := by
  norm_num [preRound, hasRoundingBug, centsOf, baseAmount, cappedMiles,
    cappedReceipts, adjust, adjStep1, adjStep2, adjStep3, adjStep4,
    adjStep5, bonusStep, milesPerDay, round_eq]

/-- Claim C3 as amended: above the caps, the Stage C base amount (the
value before the quirk or adjustment branch) grows at exactly 25 percent
of the unattenuated mileage rate, and at exactly 15 percent of the
unattenuated receipt rate; the exact-slope property is of the base, not
of the final pre-rounding amount. -/
theorem base_slope_above_caps (d : ℤ) (m r m1 m2 r1 r2 : ℚ)
    (hm1 : 800 ≤ m1) (hm12 : m1 < m2)
    (hr1 : 1800 ≤ r1) (hr12 : r1 < r2) :
    baseAmount d m2 r - baseAmount d m1 r = 0.4456 * (0.25 * (m2 - m1)) ∧
    baseAmount d m r2 - baseAmount d m r1 = 0.3829 * (0.15 * (r2 - r1)) := by
  constructor
  · unfold baseAmount cappedMiles
    have h2 : m2 > 800 := lt_of_le_of_lt hm1 hm12
    rw [if_pos h2]
    by_cases h1 : m1 > 800
    · rw [if_pos h1]; ring
    · have h80 : m1 = 800 := le_antisymm (not_lt.mp h1) hm1
      rw [if_neg h1, h80]; ring
  · unfold baseAmount cappedReceipts
    have h2 : r2 > 1800 := lt_of_le_of_lt hr1 hr12
    rw [if_pos h2]
    by_cases h1 : r1 > 1800
    · rw [if_pos h1]; ring
    · have h18 : r1 = 1800 := le_antisymm (not_lt.mp h1) hr1
      rw [if_neg h1, h18]; ring

/-- Witness for base_slope_above_caps at days 1, miles from 800 to 900,
receipts from 1800 to 2000. -/
theorem base_slope_above_caps_witness :
    baseAmount 1 900 0 - baseAmount 1 800 0 = 0.4456 * (0.25 * (900 - 800)) ∧
    baseAmount 1 0 2000 - baseAmount 1 0 1800 = 0.3829 * (0.15 * (2000 - 1800)) :=
  base_slope_above_caps 1 0 0 800 900 1800 2000
    (by norm_num) (by norm_num) (by norm_num) (by norm_num)

/-- Claim C4: the engine returns exactly the specified outputs on the three
concrete scenarios: calculate 3 93 1.42 = 458.84 (no quirk, no category
adjustment), calculate 2 50 100.49 = 195.40 (quirk branch), and
calculate 2 400 0 = 575.05 (efficiency bonus). -/
theorem calculate_concrete_scenarios :
    calculate 3 93 1.42 = 458.84 ∧
    calculate 2 50 100.49 = 195.40 ∧
    calculate 2 400 0 = 575.05 := by
  refine ⟨?_, ?_, ?_⟩ <;>
    norm_num [calculate, preRound, hasRoundingBug, centsOf, baseAmount,
      cappedMiles, cappedReceipts, adjust, adjStep1, adjStep2, adjStep3,
      adjStep4, adjStep5, bonusStep, milesPerDay, roundCents, round_eq]

/-- Claim C8: for every valid input (integer days at least 1, non-negative
miles and receipts), the value returned by calculate is non-negative. -/
theorem calculate_nonneg (d : ℤ) (m r : ℚ)
    (hd : 1 ≤ d) (hm : 0 ≤ m) (hr : 0 ≤ r) :
    0 ≤ calculate d m r :=
  le_max_left 0 (roundCents (preRound d m r))

/-- Witness for calculate_nonneg at days 3, miles 93, receipts 1.42. -/
theorem calculate_nonneg_witness : 0 ≤ calculate 3 93 1.42 :=
  calculate_nonneg 3 93 1.42 (by norm_num) (by norm_num) (by norm_num)

/-- Claim C9: for days equal to 0 the guarded fallback in line 76 gives
milesPerDay equal to miles and calculate still returns a defined
(non-negative) result; for positive days the guard is not taken and
milesPerDay equals miles divided by days. In the total embedding over the
rationals, the unreachability of the division by zero is expressed by the
guard: the division branch is only taken for positive days. -/
theorem days_zero_defensive (m r : ℚ) (hm : 0 ≤ m) (hr : 0 ≤ r) :
    milesPerDay 0 m = m ∧
    (∀ d : ℤ, 0 < d → milesPerDay d m = m / (d : ℚ)) ∧
    0 ≤ calculate 0 m r := by
  refine ⟨by simp [milesPerDay], fun d hd => by simp [milesPerDay, hd], ?_⟩
  exact le_max_left 0 (roundCents (preRound 0 m r))

/-- Witness for days_zero_defensive at miles 5, receipts 0, instantiating
the positive-days part at days 3. -/
theorem days_zero_defensive_witness :
    milesPerDay 0 5 = 5 ∧ milesPerDay 3 5 = 5 / (3 : ℚ) ∧
    0 ≤ calculate 0 5 0 := by
  obtain ⟨h1, h2, h3⟩ := days_zero_defensive 5 0 (by norm_num) (by norm_num)
  exact ⟨h1, h2 3 (by norm_num), h3⟩

/-- Claim C6: the final amount is rounded to the nearest cent before the
clamp at zero, and the returned value is an exact non-negative multiple of
0.01. -/
theorem result_round_then_clamp (d : ℤ) (m r : ℚ)
    (hd : 1 ≤ d) (hm : 0 ≤ m) (hr : 0 ≤ r) :
    calculate d m r = max 0 (roundCents (preRound d m r)) ∧
    ∃ n : ℤ, 0 ≤ n ∧ calculate d m r = (n : ℚ) / 100 := by
  refine ⟨rfl, ?_⟩
  rcases le_or_lt 0 (round (preRound d m r * 100)) with h | h
  · refine ⟨round (preRound d m r * 100), h, ?_⟩
    unfold calculate roundCents
    exact max_eq_right (by positivity)
  · refine ⟨0, le_refl 0, ?_⟩
    unfold calculate roundCents
    have hneg : ((round (preRound d m r * 100) : ℤ) : ℚ) / 100 < 0 := by
      apply div_neg_of_neg_of_pos _ (by norm_num)
      exact_mod_cast h
    simp [max_eq_left (le_of_lt hneg)]

/-- Witness for result_round_then_clamp at days 3, miles 93,
receipts 1.42. -/
theorem result_round_then_clamp_witness :
    calculate 3 93 1.42 = max 0 (roundCents (preRound 3 93 1.42)) ∧
    ∃ n : ℤ, 0 ≤ n ∧ calculate 3 93 1.42 = (n : ℚ) / 100 :=
  result_round_then_clamp 3 93 1.42 (by norm_num) (by norm_num) (by norm_num)

lemma cappedMiles_nonneg (m : ℚ) (hm : 0 ≤ m) : 0 ≤ cappedMiles m := by
  unfold cappedMiles; split_ifs with h <;> linarith

lemma cappedReceipts_nonneg (r : ℚ) (hr : 0 ≤ r) : 0 ≤ cappedReceipts r := by
  unfold cappedReceipts; split_ifs with h <;> linarith

lemma baseAmount_lb (d : ℤ) (m r : ℚ)
    (hd : 1 ≤ d) (hm : 0 ≤ m) (hr : 0 ≤ r) : 300 ≤ baseAmount d m r := by
  have hdq : (1 : ℚ) ≤ (d : ℚ) := by exact_mod_cast hd
  have h1 : 0 ≤ 0.4456 * cappedMiles m :=
    mul_nonneg (by norm_num) (cappedMiles_nonneg m hm)
  have h2 : 0 ≤ 0.3829 * cappedReceipts r :=
    mul_nonneg (by norm_num) (cappedReceipts_nonneg r hr)
  unfold baseAmount; linarith

lemma adjStep1_lb (d : ℤ) (a : ℚ) (ha : 300 ≤ a) : 276 ≤ adjStep1 d a := by
  unfold adjStep1; split_ifs <;> linarith

lemma adjStep2_lb (d : ℤ) (m a : ℚ) (ha : 276 ≤ a) : 234 ≤ adjStep2 d m a := by
  unfold adjStep2; split_ifs <;> linarith

lemma adjStep3_lb (d : ℤ) (m r a : ℚ) (ha : 234 ≤ a) :
    234 ≤ adjStep3 d m r a := by
  unfold adjStep3; split_ifs <;> linarith

lemma adjStep4_lb (d : ℤ) (m r a : ℚ) (ha : 234 ≤ a) :
    234 ≤ adjStep4 d m r a := by
  unfold adjStep4; split_ifs <;> linarith

lemma adjStep5_lb (d : ℤ) (m r a : ℚ) (ha : 234 ≤ a) :
    234 ≤ adjStep5 d m r a := by
  unfold adjStep5; split_ifs <;> linarith

lemma bonusStep_lb (d : ℤ) (m a : ℚ) (ha : 234 ≤ a) :
    234 ≤ bonusStep d m a := by
  unfold bonusStep; split_ifs <;> linarith

lemma preRound_lb (d : ℤ) (m r : ℚ)
    (hd : 1 ≤ d) (hm : 0 ≤ m) (hr : 0 ≤ r) : 100 ≤ preRound d m r := by
  have hb := baseAmount_lb d m r hd hm hr
  unfold preRound
  split_ifs with hq
  · linarith
  · have h5 := bonusStep_lb d m _
      (adjStep5_lb d m r _ (adjStep4_lb d m r _ (adjStep3_lb d m r _
        (adjStep2_lb d m _ (adjStep1_lb d _ hb)))))
    unfold adjust
    linarith

/-- Claim C10: on every valid input the amount reaching the final clamp is
strictly positive, the clamp never alters the rounded amount, and
calculate returns a strictly positive result. -/
theorem clamp_never_binds (d : ℤ) (m r : ℚ)
    (hd : 1 ≤ d) (hm : 0 ≤ m) (hr : 0 ≤ r) :
    0 < preRound d m r ∧
    calculate d m r = roundCents (preRound d m r) ∧
    0 < calculate d m r := by
  have h100 := preRound_lb d m r hd hm hr
  have hpos : 0 < preRound d m r := lt_of_lt_of_le (by norm_num) h100
  have hk : (1 : ℤ) ≤ round (preRound d m r * 100) := by
    rw [round_eq, Int.le_floor]
    push_cast
    linarith
  have hrc : (0 : ℚ) < roundCents (preRound d m r) := by
    unfold roundCents
    apply div_pos _ (by norm_num)
    exact_mod_cast lt_of_lt_of_le Int.zero_lt_one hk
  exact ⟨hpos, max_eq_right (le_of_lt hrc),
    lt_of_lt_of_le hrc (le_max_right 0 (roundCents (preRound d m r)))⟩

/-- Witness for clamp_never_binds at days 2, miles 400, receipts 0. -/
theorem clamp_never_binds_witness :
    0 < preRound 2 400 0 ∧
    calculate 2 400 0 = roundCents (preRound 2 400 0) ∧
    0 < calculate 2 400 0 :=
  clamp_never_binds 2 400 0 (by norm_num) (by norm_num) (by norm_num)

/-- The five-stage reference definition of the specification, stated on
its own terms: quirk detection from the two-decimal formatting of the
receipts, independent capping of miles and receipts, the base linear
combination, the quirk-or-adjustment branch with the six adjustments in
their listed order on the original inputs, and final rounding to cents
with a clamp at zero. -/
def specCalculate (d : ℤ) (m r : ℚ) : ℚ :=
  let quirkCents := round (r * 100) % 100
  let cm := if m ≤ 800 then m else 800 + (m - 800) * 0.25
  let cr := if r ≤ 1800 then r else 1800 + (r - 1800) * 0.15
  let base := 266.71 + 50.05 * (d : ℚ) + 0.4456 * cm + 0.3829 * cr
  let amount :=
    if quirkCents = 49 ∨ quirkCents = 99 then base * 0.457
    else
      let b1 := if d = 5 then base * 0.92 else base
      let b2 := if 12 ≤ d ∧ 1000 ≤ m then b1 * 0.85 else b1
      let b3 := if d ≤ 2 ∧ m < 100 ∧ r < 50 then b2 * 1.15 else b2
      let b4 := if 7 ≤ d ∧ d ≤ 8 ∧ 1000 ≤ m ∧ 1000 ≤ r then b3 * 1.25 else b3
      let b5 := if 13 ≤ d ∧ d ≤ 14 ∧ 1000 ≤ m ∧ 1000 ≤ r then b4 * 1.20 else b4
      let mpd := if 0 < d then m / (d : ℚ) else m
      if 180 ≤ mpd ∧ mpd ≤ 220 then b5 + 30.0 else b5
  max 0 (((round (amount * 100) : ℤ) : ℚ) / 100)

/-- Claim C1: on every valid input, calculate agrees with the five-stage
reference definition of the specification. -/
theorem calculate_matches_reference (d : ℤ) (m r : ℚ)
    (hd : 1 ≤ d) (hm : 0 ≤ m) (hr : 0 ≤ r) :
    calculate d m r = specCalculate d m r := by
  have hcm : cappedMiles m = if m ≤ 800 then m else 800 + (m - 800) * 0.25 := by
    unfold cappedMiles; split_ifs <;> first | rfl | linarith
  have hcr : cappedReceipts r = if r ≤ 1800 then r else 1800 + (r - 1800) * 0.15 := by
    unfold cappedReceipts; split_ifs <;> first | rfl | linarith
  simp only [calculate, specCalculate, preRound, adjust, adjStep1, adjStep2,
    adjStep3, adjStep4, adjStep5, bonusStep, roundCents, baseAmount,
    milesPerDay, hasRoundingBug, centsOf, hcm, hcr]

/-- Witness for calculate_matches_reference at days 1, miles 0,
receipts 0. -/
theorem calculate_matches_reference_witness :
    calculate 1 0 0 = specCalculate 1 0 0 :=
  calculate_matches_reference 1 0 0 le_rfl le_rfl le_rfl

/-- A command-line argument, abstracted by the outcomes of the two Python
conversions applied to its text: toInt is the result of int on it (none on
a ValueError) and toFloat the result of float on it. -/
structure Arg where
  toInt : Option ℤ
  toFloat : Option ℚ

/-- Python int applied to a float value, line 96: truncation toward
zero. -/
def truncQ (q : ℚ) : ℤ := if 0 ≤ q then ⌊q⌋ else ⌈q⌉

/-- A line printed by main: the usage message of line 90, the result line
of line 103, or an error line of lines 106 and 109. -/
inductive Msg where
  | usage : Msg
  | result : ℚ → Msg
  | error : Msg

/-- Exit code, standard output and standard error of one run of main. -/
structure MainResult where
  exitCode : ℕ
  stdout : List Msg
  stderr : List Msg

/-- main, lines 87-110, as a function of the three user arguments
(sys.argv without the program name). A wrong argument count prints the
usage line to standard output and exits with code 1; a failed conversion
prints an error line to standard error and exits with code 1; otherwise
the engine result, with miles truncated to an integer as in line 96, is
printed to standard output and the exit code is 0. -/
def runMain (args : List Arg) : MainResult :=
  match args with
  | [a, b, c] =>
    match a.toInt, b.toFloat, c.toFloat with
    | some d, some mf, some r =>
      ⟨0, [Msg.result (calculate d ((truncQ mf : ℤ) : ℚ) r)], []⟩
    | _, _, _ => ⟨1, [], [Msg.error]⟩
  | _ => ⟨1, [Msg.usage], []⟩

/-- Claim C7 counterexample: with zero arguments, main exits with code 1
but prints its message (the usage line) to standard output and nothing to
standard error, contradicting the claim that a wrong argument count
produces an error message on standard error. -/
theorem usage_line_on_stdout :
    (runMain []).exitCode = 1 ∧ (runMain []).stderr = [] ∧
    (runMain []).stdout = [Msg.usage] :=
  ⟨rfl, rfl, rfl⟩

/-- Claim C7 as amended: exactly three arguments are required; with three
arguments that convert, main prints only the engine result to standard
output and exits with code 0; with a number of arguments other than
three, it prints the usage message to standard output (not standard
error) and exits with code 1; with three arguments where a conversion
fails, it prints an error message to standard error and exits with
code 1. -/
theorem cli_contract :
    (∀ args : List Arg, args.length ≠ 3 →
      runMain args = ⟨1, [Msg.usage], []⟩) ∧
    (∀ a b c : Arg, ∀ dv : ℤ, ∀ mv rv : ℚ,
      a.toInt = some dv → b.toFloat = some mv → c.toFloat = some rv →
      runMain [a, b, c] =
        ⟨0, [Msg.result (calculate dv ((truncQ mv : ℤ) : ℚ) rv)], []⟩) ∧
    (∀ a b c : Arg,
      a.toInt = none ∨ b.toFloat = none ∨ c.toFloat = none →
      runMain [a, b, c] = ⟨1, [], [Msg.error]⟩) := by
  refine ⟨?_, ?_, ?_⟩
  · intro args h
    rcases args with _ | ⟨a, _ | ⟨b, _ | ⟨c, _ | ⟨e, rest⟩⟩⟩⟩
    · rfl
    · rfl
    · rfl
    · exact absurd rfl h
    · rfl
  · intro a b c dv mv rv ha hb hc
    simp [runMain, ha, hb, hc]
  · intro a b c h
    rcases h with h | h | h
    · cases hb : b.toFloat <;> cases hc : c.toFloat <;>
        simp [runMain, h, hb, hc]
    · cases ha : a.toInt <;> cases hc : c.toFloat <;>
        simp [runMain, h, ha, hc]
    · cases ha : a.toInt <;> cases hb : b.toFloat <;>
        simp [runMain, h, ha, hb]

/-- Witness for cli_contract: one concrete run of each of the three
branches. -/
theorem cli_contract_witness :
    runMain [] = ⟨1, [Msg.usage], []⟩ ∧
    runMain [⟨some 2, some 2⟩, ⟨some 400, some 400⟩, ⟨some 0, some 0⟩] =
      ⟨0, [Msg.result (calculate 2 ((truncQ 400 : ℤ) : ℚ) 0)], []⟩ ∧
    runMain [⟨none, none⟩, ⟨some 0, some 0⟩, ⟨some 0, some 0⟩] =
      ⟨1, [], [Msg.error]⟩ :=
  ⟨cli_contract.1 [] (by decide),
   cli_contract.2.1 _ _ _ 2 400 0 rfl rfl rfl,
   cli_contract.2.2 _ _ _ (Or.inl rfl)⟩

end Reimbursement
